import Mathlib

/-!
Formal model of the client rate-limit and retry coordinator of the
llm_dashboard_project repository.

The authoritative source is the `RateLimiter` class and the
`get_ai_response` retry loop in `src/pages/2_🤖_AI_Chatbot.py`
(namespace `Chatbot` below), together with the smaller `RateLimiter`
variant in `src/utils/rate_limiter.py` (namespace `Utils` below).

Modelling conventions:
* Python `datetime` values are modelled as `Int` timestamps counting
  seconds since an arbitrary epoch; `datetime.date()` becomes the whole
  day index `t / 86400` (Lean `Int` division is floor division for a
  positive divisor, exactly like Python).
* Python `timedelta.seconds` is the seconds component of a normalized
  timedelta, i.e. the difference modulo 86400 with whole days discarded;
  Lean `Int` `%` with a positive modulus agrees with Python `%` here.
* `random.uniform(0, m)` is modelled by `u * m` for a parameter
  `u : ℚ` with `0 ≤ u < 1` supplied by the environment.
* The `RATE_LIMITS` module-level dictionary is modelled as a
  `RateLimits` record passed explicitly; `defaultRateLimits` holds the
  literal values of the dictionary in the source.
* Mutation of `self` is modelled by returning the updated record.
-/

/-- Python `datetime.date()` on a timestamp in seconds: the calendar day
index.  `Int` division by the positive constant 86400 is floor division,
matching Python. -/
def pyDate (t : Int) : Int := t / 86400

/-- Python `timedelta.seconds` on a time difference `d` (in seconds):
the seconds component of the normalized timedelta, which discards whole
days, i.e. `d` modulo 86400 (Euclidean remainder, as in Python). -/
def tdSeconds (d : Int) : Int := d % 86400

namespace Chatbot

/-- The `RATE_LIMITS` configuration dictionary of
`src/pages/2_🤖_AI_Chatbot.py` (the `connectivity_check_timeout` entry is
omitted: it only parameterizes the network-connectivity probe, which has
no effect on limiter state or control flow). -/
structure RateLimits where
  requests_per_minute : Nat
  requests_per_day : Nat
  retry_delay : ℚ
  token_limit : Nat
  network_retry_delay : ℚ
  max_backoff : ℚ
  backoff_factor : ℚ
  jitter_factor : ℚ
  cooldown_period : Int
  service_unavailable_backoff : ℚ
  max_network_retries : Nat
  deriving DecidableEq

/-- The literal values assigned to `RATE_LIMITS` in the source. -/
def defaultRateLimits : RateLimits where
  requests_per_minute := 3
  requests_per_day := 50
  retry_delay := 60
  token_limit := 8000
  network_retry_delay := 10
  max_backoff := 120
  backoff_factor := 5/2
  jitter_factor := 3/10
  cooldown_period := 300
  service_unavailable_backoff := 15
  max_network_retries := 5

/-- The mutable state of `RateLimiter` in `src/pages/2_🤖_AI_Chatbot.py`. -/
structure RateLimiter where
  last_request_time : Int
  requests_this_minute : Nat
  requests_today : Nat
  day_start : Int
  last_error_time : Option Int
  network_errors : Nat
  last_network_error_time : Option Int
  consecutive_network_errors : Nat
  rate_limit_errors : Nat
  last_rate_limit_time : Option Int
  in_cooldown : Bool
  cooldown_end_time : Option Int
  deriving DecidableEq

/-- `RateLimiter.__init__`, called when `datetime.now()` is `now`:
backdates `last_request_time` by one minute and zeroes every counter. -/
def RateLimiter.init (now : Int) : RateLimiter where
  last_request_time := now - 60
  requests_this_minute := 0
  requests_today := 0
  day_start := pyDate now
  last_error_time := none
  network_errors := 0
  last_network_error_time := none
  consecutive_network_errors := 0
  rate_limit_errors := 0
  last_rate_limit_time := none
  in_cooldown := false
  cooldown_end_time := none

/-- The tail of `RateLimiter.can_make_request` after the cooldown check:
reset the daily counter on a calendar-date change, reset the minute
counter when `(now - last_request_time).seconds >= 60`, then compare both
counters against their limits. -/
def rolloverAndDecide (cfg : RateLimits) (s : RateLimiter) (now : Int) :
    Bool × RateLimiter :=
  let s :=
    if pyDate now ≠ s.day_start then
      { s with requests_today := 0, day_start := pyDate now }
    else s
  let s :=
    if 60 ≤ tdSeconds (now - s.last_request_time) then
      { s with requests_this_minute := 0 }
    else s
  (decide (s.requests_this_minute < cfg.requests_per_minute) &&
    decide (s.requests_today < cfg.requests_per_day), s)

/-- `RateLimiter.can_make_request`, called when `datetime.now()` is
`now`.  Returns the boolean decision together with the mutated state.
The guard `if self.in_cooldown and self.cooldown_end_time:` tests Python
truthiness of `cooldown_end_time`, i.e. that it is not `None`. -/
def can_make_request (cfg : RateLimits) (s : RateLimiter) (now : Int) :
    Bool × RateLimiter :=
  match s.in_cooldown, s.cooldown_end_time with
  | true, some e =>
    if now < e then (false, s)
    else
      rolloverAndDecide cfg
        { s with in_cooldown := false, cooldown_end_time := none } now
  | _, _ => rolloverAndDecide cfg s now

/-- `RateLimiter.record_request`, called when `datetime.now()` is `now`. -/
def record_request (s : RateLimiter) (now : Int) : RateLimiter :=
  { s with
    requests_this_minute := s.requests_this_minute + 1
    requests_today := s.requests_today + 1
    last_request_time := now }

/-- The `error_type` string parameter of `RateLimiter.record_error`;
the source passes `"network"`, `"rate_limit"` or leaves the default
`"general"` (any other string falls into the same `else` branch). -/
inductive ErrType
  | network
  | rate_limit
  | general
  deriving DecidableEq

/-- `RateLimiter.record_error`, called when `datetime.now()` is `now`. -/
def record_error (cfg : RateLimits) (s : RateLimiter) (now : Int)
    (error_type : ErrType) : RateLimiter :=
  let s := { s with last_error_time := some now }
  match error_type with
  | .network =>
    { s with
      network_errors := s.network_errors + 1
      last_network_error_time := some now
      consecutive_network_errors := s.consecutive_network_errors + 1 }
  | .rate_limit =>
    let s := { s with
      rate_limit_errors := s.rate_limit_errors + 1
      last_rate_limit_time := some now }
    let cooldown_multiplier : Nat := min s.rate_limit_errors 5
    let cooldown_time : Int := cfg.cooldown_period * cooldown_multiplier
    { s with
      in_cooldown := true
      cooldown_end_time := some (now + cooldown_time) }
  | .general => { s with consecutive_network_errors := 0 }

/-- `RateLimiter.get_wait_time`, called when `datetime.now()` is `now`;
`u` models the fresh `random.uniform(0, 1)` draw scaled onto
`[0, jitter_factor * base_wait_time)`. -/
def get_wait_time (cfg : RateLimits) (s : RateLimiter) (now : Int)
    (u : ℚ) : ℚ :=
  match s.in_cooldown, s.cooldown_end_time with
  | true, some e => max ((e - now : Int) : ℚ) 0
  | _, _ =>
    if cfg.requests_per_minute ≤ s.requests_this_minute then
      let seconds_since_last := tdSeconds (now - s.last_request_time)
      let base_wait_time : Int := max (60 - seconds_since_last) 0
      (base_wait_time : ℚ) + u * (cfg.jitter_factor * (base_wait_time : ℚ))
    else 0

/-- `RateLimiter.get_network_backoff_time`; `service_unavailable` is true
when the source passes `error_type="service_unavailable"`, and `u` models
the fresh `random.uniform(0, 1)` draw scaled onto `[0, jitter_max)`. -/
def get_network_backoff_time (cfg : RateLimits) (s : RateLimiter)
    (attempt : Nat) (service_unavailable : Bool) (u : ℚ) : ℚ :=
  let factor := max attempt s.consecutive_network_errors
  let base_backoff_time : ℚ :=
    if service_unavailable then
      min (cfg.service_unavailable_backoff * cfg.backoff_factor ^ (factor + 1))
        cfg.max_backoff
    else
      min (cfg.network_retry_delay * cfg.backoff_factor ^ factor)
        cfg.max_backoff
  let jitter_max := cfg.jitter_factor * base_backoff_time
  base_backoff_time + u * jitter_max

/-- `RateLimiter.reset_network_errors`. -/
def reset_network_errors (s : RateLimiter) : RateLimiter :=
  { s with consecutive_network_errors := 0 }

/-- `RateLimiter.reset_rate_limit_errors`. -/
def reset_rate_limit_errors (s : RateLimiter) : RateLimiter :=
  { s with
    rate_limit_errors := 0
    in_cooldown := false
    cooldown_end_time := none }

/-! ### The retry loop `get_ai_response`

The loop `for attempt in range(max_retries):` of `get_ai_response` is
modelled as a recursion over remaining attempts.  The classification of
the caught exception message (`"429"` → rate limit, timeout/connection
substrings → network, `"503"`/`"service unavailable"` → service
unavailable, token-phrase → token limit, anything else → other) is
modelled at its result level: the environment says which class the
raised error falls into.  `st.warning`/`st.error`/`st.info` calls and the
`check_network_connectivity` probe affect neither limiter state nor
control flow and are not modelled; `time.sleep` durations are recorded
as a boolean "a wait happened" flag, while the passage of time itself is
carried by the per-attempt timestamps of the environment. -/

/-- Classification of an exception raised by `model.generate_content`,
as performed by the `if`/`elif` chain in the `except` handler. -/
inductive ErrKind
  | rateLimit
  | network
  | serviceUnavailable
  | tokenLimit
  | other
  deriving DecidableEq

/-- Result of one invocation of the underlying AI callable. -/
inductive CallOutcome
  | ok
  | err (k : ErrKind)
  deriving DecidableEq

/-- The environment of a `get_ai_response` run: for attempt `i`,
`tCheck i` is the `datetime.now()` read inside `can_make_request`,
`tAct i` the `datetime.now()` read by the subsequent
`record_request`/`record_error`/`get_wait_time` calls of the same
attempt (successive reads within one handler are modelled as one
instant), `uWait i`/`uBackoff i` the jitter draws, and `outcome i` what
the underlying callable does if it is invoked at attempt `i`. -/
structure Env where
  tCheck : Nat → Int
  tAct : Nat → Int
  uWait : Nat → ℚ
  uBackoff : Nat → ℚ
  outcome : Nat → CallOutcome

/-- Ghost record of one loop iteration: the limiter state `pre` and time
`t` at which `can_make_request` ran, its decision `admitted`, the result
of the callable when it was invoked (`outcome = none` means the callable
was not invoked), whether a `time.sleep` preceded the next attempt, and
the limiter state `post` handed to the rest of the run. -/
structure AttemptLog where
  attempt : Nat
  pre : RateLimiter
  t : Int
  admitted : Bool
  outcome : Option CallOutcome
  slept : Bool
  post : RateLimiter
  deriving DecidableEq

/-- Control-flow result of one loop iteration: either the function
returns (`done`, with `some i` standing for the response object obtained
at attempt `i` and `none` for Python `None`), or the loop continues. -/
inductive StepResult
  | done (result : Option Nat) (s : RateLimiter)
  | retry (s : RateLimiter)
  deriving DecidableEq

/-- One iteration of the `for attempt in range(max_retries):` body of
`get_ai_response`. -/
def attemptBody (cfg : RateLimits) (env : Env) (max_retries : Nat)
    (attempt : Nat) (s : RateLimiter) : StepResult × AttemptLog :=
  let tc := env.tCheck attempt
  let p := can_make_request cfg s tc
  let s1 := p.2
  if p.1 then
    let ta := env.tAct attempt
    let s2 := record_request s1 ta
    match env.outcome attempt with
    | .ok =>
      -- reset_network_errors(); reset_rate_limit_errors(); return response
      let s3 := reset_rate_limit_errors (reset_network_errors s2)
      (.done (some attempt) s3,
        ⟨attempt, s, tc, true, some .ok, false, s3⟩)
    | .err .rateLimit =>
      let s3 := record_error cfg s2 ta .rate_limit
      let _wait_time := get_wait_time cfg s3 ta (env.uWait attempt)
      if attempt + 1 < max_retries then
        (.retry s3, ⟨attempt, s, tc, true, some (.err .rateLimit), true, s3⟩)
      else
        (.done none s3, ⟨attempt, s, tc, true, some (.err .rateLimit), false, s3⟩)
    | .err .network =>
      let s3 := record_error cfg s2 ta .network
      let _backoff_time := get_network_backoff_time cfg s3 attempt false (env.uBackoff attempt)
      if attempt + 1 < max_retries then
        (.retry s3, ⟨attempt, s, tc, true, some (.err .network), true, s3⟩)
      else
        (.done none s3, ⟨attempt, s, tc, true, some (.err .network), false, s3⟩)
    | .err .serviceUnavailable =>
      -- the source records a 503 as a plain network error...
      let s3 := record_error cfg s2 ta .network
      -- ...but uses the dedicated service-unavailable backoff
      let _backoff_time := get_network_backoff_time cfg s3 attempt true (env.uBackoff attempt)
      -- max_503_retries = RATE_LIMITS.get("max_network_retries", 5)
      if attempt < min (max_retries - 1) (cfg.max_network_retries - 1) then
        (.retry s3, ⟨attempt, s, tc, true, some (.err .serviceUnavailable), true, s3⟩)
      else
        (.done none s3, ⟨attempt, s, tc, true, some (.err .serviceUnavailable), false, s3⟩)
    | .err .tokenLimit =>
      -- st.error(...); return None — no record_error, no sleep, no retry
      (.done none s2, ⟨attempt, s, tc, true, some (.err .tokenLimit), false, s2⟩)
    | .err .other =>
      -- st.error(...); return None — no record_error, no sleep, no retry
      (.done none s2, ⟨attempt, s, tc, true, some (.err .other), false, s2⟩)
  else
    let _wait_time := get_wait_time cfg s1 tc (env.uWait attempt)
    if attempt + 1 < max_retries then
      -- time.sleep(min(wait_time, RATE_LIMITS["retry_delay"])); continue
      (.retry s1, ⟨attempt, s, tc, false, none, true, s1⟩)
    else
      (.done none s1, ⟨attempt, s, tc, false, none, false, s1⟩)

/-- Aggregate result of a `get_ai_response` run: the returned value
(`some i` = the response obtained at attempt `i`, `none` = Python
`None`), the final limiter state, and the ghost per-attempt trace. -/
structure RunResult where
  result : Option Nat
  final : RateLimiter
  trace : List AttemptLog

/-- The loop of `get_ai_response` from attempt index `attempt` on, with
`fuel` remaining iterations (`get_ai_response` starts it with
`fuel = max_retries`, `attempt = 0`, so `fuel + attempt = max_retries`
throughout). -/
def runFrom (cfg : RateLimits) (env : Env) (max_retries : Nat) :
    Nat → Nat → RateLimiter → RunResult
  | 0, _, s => ⟨none, s, []⟩
  | fuel + 1, attempt, s =>
    match attemptBody cfg env max_retries attempt s with
    | (.done r s3, log) => ⟨r, s3, [log]⟩
    | (.retry s3, log) =>
      let rest := runFrom cfg env max_retries fuel (attempt + 1) s3
      ⟨rest.result, rest.final, log :: rest.trace⟩

/-- `get_ai_response(model, prompt, max_retries)` acting on the limiter
state `s0` stored in the session, under environment `env`. -/
def get_ai_response (cfg : RateLimits) (env : Env) (max_retries : Nat)
    (s0 : RateLimiter) : RunResult :=
  runFrom cfg env max_retries max_retries 0 s0

end Chatbot

namespace Utils

/-- The entries of the `limits` dictionary that
`src/utils/rate_limiter.py` actually reads. -/
structure Limits where
  requests_per_minute : Nat
  requests_per_day : Nat
  deriving DecidableEq

/-- The mutable state of `RateLimiter` in `src/utils/rate_limiter.py`
(the constructor stores the `limits` dictionary on the instance). -/
structure RateLimiter where
  limits : Limits
  last_request_time : Int
  requests_this_minute : Nat
  requests_today : Nat
  day_start : Int
  deriving DecidableEq

/-- `RateLimiter.__init__(limits)` of the utils variant, called when
`datetime.now()` is `now`. -/
def RateLimiter.init (limits : Limits) (now : Int) : RateLimiter where
  limits := limits
  last_request_time := now - 60
  requests_this_minute := 0
  requests_today := 0
  day_start := pyDate now

/-- `RateLimiter.can_make_request` of the utils variant. -/
def can_make_request (s : RateLimiter) (now : Int) : Bool × RateLimiter :=
  let s :=
    if pyDate now ≠ s.day_start then
      { s with requests_today := 0, day_start := pyDate now }
    else s
  let s :=
    if 60 ≤ tdSeconds (now - s.last_request_time) then
      { s with requests_this_minute := 0 }
    else s
  (decide (s.requests_this_minute < s.limits.requests_per_minute) &&
    decide (s.requests_today < s.limits.requests_per_day), s)

/-- `RateLimiter.record_request` of the utils variant. -/
def record_request (s : RateLimiter) (now : Int) : RateLimiter :=
  { s with
    requests_this_minute := s.requests_this_minute + 1
    requests_today := s.requests_today + 1
    last_request_time := now }

/-- `RateLimiter.get_wait_time` of the utils variant (no jitter and no
clamp to zero in this variant). -/
def get_wait_time (s : RateLimiter) (now : Int) : Int :=
  if s.limits.requests_per_minute ≤ s.requests_this_minute then
    60 - tdSeconds (now - s.last_request_time)
  else 0

end Utils

open Chatbot

/-! ### Concrete states and environments used by individual claims -/

/-- A limiter state in a cooldown that ends at time 100, with a recent
last request (10 s before the cooldown end) and nonzero counters on the
same calendar day. -/
def stateC1 : RateLimiter where
  last_request_time := 90
  requests_this_minute := 2
  requests_today := 7
  day_start := 0
  last_error_time := some 40
  network_errors := 0
  last_network_error_time := none
  consecutive_network_errors := 0
  rate_limit_errors := 1
  last_rate_limit_time := some 40
  in_cooldown := true
  cooldown_end_time := some 100

/-- A limiter state at the default minute limit (3 requests recorded at
time 0), not in cooldown. -/
def stateC2 : RateLimiter where
  last_request_time := 0
  requests_this_minute := 3
  requests_today := 3
  day_start := 0
  last_error_time := none
  network_errors := 0
  last_network_error_time := none
  consecutive_network_errors := 0
  rate_limit_errors := 0
  last_rate_limit_time := none
  in_cooldown := false
  cooldown_end_time := none

/-- A limiter state at the default minute limit with the minute window
long elapsed (last request at time 0). -/
def stateC3 : RateLimiter where
  last_request_time := 0
  requests_this_minute := 3
  requests_today := 3
  day_start := 0
  last_error_time := none
  network_errors := 0
  last_network_error_time := none
  consecutive_network_errors := 0
  rate_limit_errors := 0
  last_rate_limit_time := none
  in_cooldown := false
  cooldown_end_time := none

/-- Modelled from the spec: `recordAdmission()` as claim C3 describes it
("performs the same window-rollover checks as `canAdmit` first", then
increments both counters and sets `lastRequestTime = now`).  This is the
comparison definition for the refinement claim C3; the source
`record_request` performs no rollover. -/
def record_request_claim (s : RateLimiter) (now : Int) : RateLimiter :=
  let s :=
    if pyDate now ≠ s.day_start then
      { s with requests_today := 0, day_start := pyDate now }
    else s
  let s :=
    if 60 ≤ tdSeconds (now - s.last_request_time) then
      { s with requests_this_minute := 0 }
    else s
  { s with
    requests_this_minute := s.requests_this_minute + 1
    requests_today := s.requests_today + 1
    last_request_time := now }

/-- An environment whose callable always succeeds, with all clock reads
at time 0. -/
def envOk : Env where
  tCheck := fun _ => 0
  tAct := fun _ => 0
  uWait := fun _ => 0
  uBackoff := fun _ => 0
  outcome := fun _ => .ok

/-- An environment whose callable always succeeds, with all clock reads
at time 100. -/
def envLate : Env where
  tCheck := fun _ => 100
  tAct := fun _ => 100
  uWait := fun _ => 0
  uBackoff := fun _ => 0
  outcome := fun _ => .ok

/-- An environment whose callable always raises a token-limit error. -/
def envTok : Env where
  tCheck := fun _ => 0
  tAct := fun _ => 0
  uWait := fun _ => 0
  uBackoff := fun _ => 0
  outcome := fun _ => .err .tokenLimit

/-- An environment whose callable always raises a network error. -/
def envNet : Env where
  tCheck := fun _ => 0
  tAct := fun _ => 0
  uWait := fun _ => 0
  uBackoff := fun _ => 0
  outcome := fun _ => .err .network

/-- The page-2 configuration with a per-minute limit of one request. -/
def cfgOnePerMinute : RateLimits :=
  { defaultRateLimits with requests_per_minute := 1 }

/-- A limiter state one admission into the current minute window
(admitted at time 0). -/
def stateC5 : RateLimiter where
  last_request_time := 0
  requests_this_minute := 1
  requests_today := 1
  day_start := 0
  last_error_time := none
  network_errors := 0
  last_network_error_time := none
  consecutive_network_errors := 0
  rate_limit_errors := 0
  last_rate_limit_time := none
  in_cooldown := false
  cooldown_end_time := none

/-- The `limits` dictionary handed to the utils `RateLimiter` in the
claims about a fresh session. -/
def limitsW : Utils.Limits where
  requests_per_minute := 3
  requests_per_day := 50

/-- The single attempt record of the run
`get_ai_response defaultRateLimits envOk 1 (RateLimiter.init 0)`:
a fresh limiter admits the request at time 0 and the call succeeds. -/
def logC3 : AttemptLog where
  attempt := 0
  pre := RateLimiter.init 0
  t := 0
  admitted := true
  outcome := some .ok
  slept := false
  post :=
    { last_request_time := 0
      requests_this_minute := 1
      requests_today := 1
      day_start := 0
      last_error_time := none
      network_errors := 0
      last_network_error_time := none
      consecutive_network_errors := 0
      rate_limit_errors := 0
      last_rate_limit_time := none
      in_cooldown := false
      cooldown_end_time := none }

/-- The single attempt record of the run
`get_ai_response cfgOnePerMinute envLate 1 stateC5`: one admission is
already in the window, the call happens 100 s after it, so the minute
counter rolls over and the request is admitted. -/
def logC5 : AttemptLog where
  attempt := 0
  pre := stateC5
  t := 100
  admitted := true
  outcome := some .ok
  slept := false
  post :=
    { last_request_time := 100
      requests_this_minute := 1
      requests_today := 2
      day_start := 0
      last_error_time := none
      network_errors := 0
      last_network_error_time := none
      consecutive_network_errors := 0
      rate_limit_errors := 0
      last_rate_limit_time := none
      in_cooldown := false
      cooldown_end_time := none }

/-- The first attempt record of the run
`get_ai_response defaultRateLimits envNet 2 (RateLimiter.init 0)`:
the fresh limiter admits the request, the callable raises a network
error, the error is recorded and the loop sleeps and retries. -/
def logC8 : AttemptLog where
  attempt := 0
  pre := RateLimiter.init 0
  t := 0
  admitted := true
  outcome := some (.err .network)
  slept := true
  post :=
    { last_request_time := 0
      requests_this_minute := 1
      requests_today := 1
      day_start := 0
      last_error_time := some 0
      network_errors := 1
      last_network_error_time := some 0
      consecutive_network_errors := 1
      rate_limit_errors := 0
      last_rate_limit_time := none
      in_cooldown := false
      cooldown_end_time := none }

/-- `n` consecutive `record_error(error_type="rate_limit")` calls with no
intervening success, the `i`-th call happening when `datetime.now()` is
`times i`. -/
def iterate_rate_limit_errors (cfg : RateLimits) (times : Nat → Int)
    (s : RateLimiter) : Nat → RateLimiter
  | 0 => s
  | n + 1 =>
    record_error cfg (iterate_rate_limit_errors cfg times s n) (times n)
      .rate_limit

/-- The `error_type` string that `get_ai_response` passes to
`record_error` for each transient error classification: a 429 is
recorded as `"rate_limit"`, while both generic network errors and 503
responses are recorded as `"network"` (the 503 branch calls
`record_error(error_type="network")`).  The terminal classifications
(token limit, other) never reach `record_error`; they are mapped to an
arbitrary value here and never used at those kinds. -/
def recordedType : ErrKind → ErrType
  | .rateLimit => .rate_limit
  | _ => .network

/-- The retry-budget test that `get_ai_response` applies to a transient
error at attempt index `a`: `attempt < max_retries - 1` for 429 and
network errors, `attempt < min(max_retries - 1, max_network_retries - 1)`
for 503 errors (all in Python integer arithmetic; the loop only runs
with `a < max_retries`, where the `Nat` subtraction below agrees with
Python). -/
def retryCondition (cfg : RateLimits) (max_retries : Nat) (k : ErrKind)
    (a : Nat) : Bool :=
  match k with
  | .serviceUnavailable =>
    decide (a < min (max_retries - 1) (cfg.max_network_retries - 1))
  | _ => decide (a + 1 < max_retries)

/-! ### Helper lemmas about a single `can_make_request` call -/

lemma rolloverAndDecide_spec (cfg : RateLimits) (s : RateLimiter) (now : Int) :
    (rolloverAndDecide cfg s now).2.requests_this_minute =
      (if 60 ≤ tdSeconds (now - s.last_request_time) then 0
       else s.requests_this_minute) ∧
    (rolloverAndDecide cfg s now).2.requests_today =
      (if pyDate now = s.day_start then s.requests_today else 0) ∧
    (rolloverAndDecide cfg s now).2.day_start =
      (if pyDate now = s.day_start then s.day_start else pyDate now) ∧
    (rolloverAndDecide cfg s now).2.last_request_time = s.last_request_time ∧
    (rolloverAndDecide cfg s now).2.in_cooldown = s.in_cooldown ∧
    (rolloverAndDecide cfg s now).2.cooldown_end_time = s.cooldown_end_time ∧
    (rolloverAndDecide cfg s now).2.consecutive_network_errors =
      s.consecutive_network_errors ∧
    (rolloverAndDecide cfg s now).2.rate_limit_errors = s.rate_limit_errors ∧
    (rolloverAndDecide cfg s now).1 =
      (decide ((rolloverAndDecide cfg s now).2.requests_this_minute <
          cfg.requests_per_minute) &&
       decide ((rolloverAndDecide cfg s now).2.requests_today <
          cfg.requests_per_day)) := by
  by_cases h1 : pyDate now = s.day_start <;>
    by_cases h2 : 60 ≤ tdSeconds (now - s.last_request_time) <;>
      simp [rolloverAndDecide, h1, h2]

lemma can_make_request_blocked (cfg : RateLimits) (s : RateLimiter)
    (now e : Int) (hc : s.in_cooldown = true)
    (he : s.cooldown_end_time = some e) (hlt : now < e) :
    can_make_request cfg s now = (false, s) := by
  unfold can_make_request
  rw [hc, he]
  simp [hlt]

lemma can_make_request_expired (cfg : RateLimits) (s : RateLimiter)
    (now e : Int) (hc : s.in_cooldown = true)
    (he : s.cooldown_end_time = some e) (hge : e ≤ now) :
    can_make_request cfg s now =
      rolloverAndDecide cfg
        { s with in_cooldown := false, cooldown_end_time := none } now := by
  unfold can_make_request
  rw [hc, he]
  simp [not_lt.mpr hge]

lemma can_make_request_no_cooldown (cfg : RateLimits) (s : RateLimiter)
    (now : Int) (hc : s.in_cooldown = false) :
    can_make_request cfg s now = rolloverAndDecide cfg s now := by
  unfold can_make_request
  rw [hc]

lemma can_make_request_none_end (cfg : RateLimits) (s : RateLimiter)
    (now : Int) (he : s.cooldown_end_time = none) :
    can_make_request cfg s now = rolloverAndDecide cfg s now := by
  unfold can_make_request
  rw [he]
  cases s.in_cooldown <;> rfl

/-! ### Claim C1 -/

/-- Claim C1 (amended): for every limiter state and call time `now`:
while `in_cooldown` holds with `now < cooldown_end_time`,
`can_make_request` returns false and leaves the state unchanged; once
`now ≥ cooldown_end_time` the call clears `in_cooldown` and
`cooldown_end_time`, while the counters are reset only by the ordinary
window rollover (`requests_today` iff the calendar date changed,
`requests_this_minute` iff the seconds component of
`now - last_request_time` is at least 60), not unconditionally; and when
not in cooldown it returns true iff, after window rollover,
`requests_this_minute` is strictly below `requests_per_minute` and
`requests_today` is strictly below `requests_per_day`. -/
theorem c1_cooldown_gate (cfg : RateLimits) (s : RateLimiter) (now e : Int) :
    (s.in_cooldown = true → s.cooldown_end_time = some e → now < e →
      can_make_request cfg s now = (false, s)) ∧
    (s.in_cooldown = true → s.cooldown_end_time = some e → e ≤ now →
      (can_make_request cfg s now).2.in_cooldown = false ∧
      (can_make_request cfg s now).2.cooldown_end_time = none ∧
      (can_make_request cfg s now).2.requests_this_minute =
        (if 60 ≤ tdSeconds (now - s.last_request_time) then 0
         else s.requests_this_minute) ∧
      (can_make_request cfg s now).2.requests_today =
        (if pyDate now = s.day_start then s.requests_today else 0)) ∧
    (s.in_cooldown = false →
      ((can_make_request cfg s now).1 = true ↔
        (can_make_request cfg s now).2.requests_this_minute <
          cfg.requests_per_minute ∧
        (can_make_request cfg s now).2.requests_today <
          cfg.requests_per_day)) := by
  refine ⟨fun hc he hlt => can_make_request_blocked cfg s now e hc he hlt,
    fun hc he hge => ?_, fun hc => ?_⟩
  · rw [can_make_request_expired cfg s now e hc he hge]
    have h := rolloverAndDecide_spec cfg
      { s with in_cooldown := false, cooldown_end_time := none } now
    exact ⟨h.2.2.2.2.1, h.2.2.2.2.2.1, h.1, h.2.1⟩
  · rw [can_make_request_no_cooldown cfg s now hc]
    have h := (rolloverAndDecide_spec cfg s now).2.2.2.2.2.2.2.2
    rw [h]
    simp

/-- Claim C1 counterexample: in the state `stateC1` the cooldown has just
expired at call time 100 (`in_cooldown` holds and `now = 100 ≥
cooldown_end_time = 100`), yet the call leaves `requests_this_minute = 2`
and `requests_today = 7` rather than resetting both to 0 (the cooldown
flags themselves are cleared). -/
theorem c1_counterexample :
    stateC1.in_cooldown = true ∧
    stateC1.cooldown_end_time = some 100 ∧
    (can_make_request defaultRateLimits stateC1 100).2.requests_this_minute = 2 ∧
    (can_make_request defaultRateLimits stateC1 100).2.requests_today = 7 ∧
    (can_make_request defaultRateLimits stateC1 100).2.in_cooldown = false ∧
    (can_make_request defaultRateLimits stateC1 100).2.cooldown_end_time = none := by
  decide

/-- Claim C1 witness: the amended theorem applied to `stateC1` at the
concrete times 50 (inside the cooldown) and 100 (cooldown expired). -/
theorem c1_witness :
    can_make_request defaultRateLimits stateC1 50 = (false, stateC1) ∧
    (can_make_request defaultRateLimits stateC1 100).2.in_cooldown = false := by
  constructor
  · exact (c1_cooldown_gate defaultRateLimits stateC1 50 100).1 rfl rfl (by decide)
  · exact ((c1_cooldown_gate defaultRateLimits stateC1 100 100).2.1 rfl rfl
      (by decide)).1

/-! ### Claim C2 -/

/-- Claim C2: evidence of the code bug.  `stateC2` has the minute limit
(3 requests) recorded at time 0.  At call time 30 (less than 60 s later)
`can_make_request` returns false, and at call time 60 within the same day
it resets the minute counter and returns true, as the claim says; but at
call time 86430 — a full day plus 30 seconds after `last_request_time`,
hence at least 60 seconds past it — the code still returns false and
leaves `requests_this_minute = 3`, because it measures elapsed time with
Python `timedelta.seconds`, which discards whole days.  The claim (and
the code's own comment "Reset minute counter if a minute has passed")
requires a reset and admission here. -/
theorem c2_minute_window_day_wrap :
    (can_make_request defaultRateLimits stateC2 30).1 = false ∧
    (can_make_request defaultRateLimits stateC2 60).1 = true ∧
    (60 : Int) ≤ 86430 - stateC2.last_request_time ∧
    (can_make_request defaultRateLimits stateC2 86430).1 = false ∧
    (can_make_request defaultRateLimits stateC2 86430).2.requests_this_minute
      = 3 := by
  decide

/-! ### Claim C4 -/

lemma record_error_rate_limit (cfg : RateLimits) (s : RateLimiter)
    (now : Int) :
    record_error cfg s now .rate_limit =
      { s with
        last_error_time := some now
        rate_limit_errors := s.rate_limit_errors + 1
        last_rate_limit_time := some now
        in_cooldown := true
        cooldown_end_time :=
          some (now +
            cfg.cooldown_period * (min (s.rate_limit_errors + 1) 5 : Nat)) } :=
  rfl

lemma iterate_rle_count (cfg : RateLimits) (times : Nat → Int)
    (s : RateLimiter) : ∀ n,
    (iterate_rate_limit_errors cfg times s n).rate_limit_errors =
      s.rate_limit_errors + n := by
  intro n
  induction n with
  | zero => rfl
  | succ n ih =>
    simp only [iterate_rate_limit_errors, record_error]
    omega

/-- Claim C4: starting from any state with `rate_limit_errors = 0`, after
`N ≥ 1` consecutive `record_error(rate_limit)` calls with no intervening
success, the state has `rate_limit_errors = N`, `in_cooldown = true` and
`cooldown_end_time = now + cooldown_period * min(N, 5)` where `now` is
the time of the `N`-th call; with `cooldown_period = 300` the 3rd call
yields a 900-second cooldown and the 10th still 1500 seconds. -/
theorem c4_cooldown_escalation (cfg : RateLimits) (times : Nat → Int)
    (s : RateLimiter) (h0 : s.rate_limit_errors = 0) (N : Nat)
    (hN : 1 ≤ N) :
    (iterate_rate_limit_errors cfg times s N).rate_limit_errors = N ∧
    (iterate_rate_limit_errors cfg times s N).in_cooldown = true ∧
    (iterate_rate_limit_errors cfg times s N).cooldown_end_time =
      some (times (N - 1) + cfg.cooldown_period * (min N 5 : Nat)) ∧
    (cfg.cooldown_period = 300 → N = 3 →
      (iterate_rate_limit_errors cfg times s N).cooldown_end_time =
        some (times 2 + 900)) ∧
    (cfg.cooldown_period = 300 → N = 10 →
      (iterate_rate_limit_errors cfg times s N).cooldown_end_time =
        some (times 9 + 1500)) := by
  obtain ⟨m, rfl⟩ : ∃ m, N = m + 1 := ⟨N - 1, by omega⟩
  have hm : (iterate_rate_limit_errors cfg times s m).rate_limit_errors = m := by
    have := iterate_rle_count cfg times s m
    omega
  have hstep : iterate_rate_limit_errors cfg times s (m + 1) =
      record_error cfg (iterate_rate_limit_errors cfg times s m) (times m)
        .rate_limit := rfl
  rw [hstep, record_error_rate_limit, hm]
  refine ⟨rfl, rfl, by simp, ?_, ?_⟩
  · rintro hp h3
    have hm2 : m = 2 := by omega
    subst hm2
    rw [hp]
    norm_num
  · rintro hp h10
    have hm9 : m = 9 := by omega
    subst hm9
    rw [hp]
    norm_num

/-- Claim C4 witness: three consecutive rate-limit errors on a fresh
limiter (the `i`-th at time `i`) with the default configuration leave
`rate_limit_errors = 3`, an active cooldown, and a cooldown end time of
`2 + 900`. -/
theorem c4_witness :
    (iterate_rate_limit_errors defaultRateLimits (fun i => (i : Int))
      (RateLimiter.init 0) 3).rate_limit_errors = 3 ∧
    (iterate_rate_limit_errors defaultRateLimits (fun i => (i : Int))
      (RateLimiter.init 0) 3).in_cooldown = true ∧
    (iterate_rate_limit_errors defaultRateLimits (fun i => (i : Int))
      (RateLimiter.init 0) 3).cooldown_end_time = some 902 := by
  have h := c4_cooldown_escalation defaultRateLimits (fun i => (i : Int))
    (RateLimiter.init 0) rfl 3 (by decide)
  refine ⟨h.1, h.2.1, ?_⟩
  rw [h.2.2.2.1 rfl rfl]
  norm_num

/-! ### Claim C7 -/

lemma backoff_jitter_bounds (b u : ℚ) (hb : 0 < b) (h0 : 0 ≤ u)
    (h1 : u < 1) :
    b ≤ b + u * (3/10 * b) ∧ b + u * (3/10 * b) < b * (13/10) := by
  constructor
  · nlinarith
  · nlinarith

/-- Claim C7: with the default configuration, for every state with
consecutive-network-error count `c`, every attempt number `a` and every
jitter draw `u ∈ [0, 1)`, writing `factor = max a c`, the returned delay
lies in `[base, base * 1.3)` with `base = min(10 * 2.5 ^ factor, 120)`
for network errors and `base = min(15 * 2.5 ^ (factor + 1), 120)` for
service-unavailable errors; the jitter is one-sided, so the delay is
never below `base`; in particular attempt 0 (network, `c = 0`) gives a
value in `[10, 13)` and attempt 2 gives a value in `[62.5, 81.25)`. -/
theorem c7_backoff_bounds (s : RateLimiter) (attempt : Nat) (u : ℚ)
    (h0 : 0 ≤ u) (h1 : u < 1) :
    (min (10 * (5/2 : ℚ) ^ max attempt s.consecutive_network_errors) 120 ≤
        get_network_backoff_time defaultRateLimits s attempt false u ∧
      get_network_backoff_time defaultRateLimits s attempt false u <
        min (10 * (5/2 : ℚ) ^ max attempt s.consecutive_network_errors) 120
          * (13/10)) ∧
    (min (15 * (5/2 : ℚ) ^ (max attempt s.consecutive_network_errors + 1))
        120 ≤ get_network_backoff_time defaultRateLimits s attempt true u ∧
      get_network_backoff_time defaultRateLimits s attempt true u <
        min (15 * (5/2 : ℚ) ^ (max attempt s.consecutive_network_errors + 1))
          120 * (13/10)) ∧
    (attempt = 0 → s.consecutive_network_errors = 0 →
      10 ≤ get_network_backoff_time defaultRateLimits s attempt false u ∧
      get_network_backoff_time defaultRateLimits s attempt false u < 13) ∧
    (attempt = 2 → s.consecutive_network_errors = 0 →
      125/2 ≤ get_network_backoff_time defaultRateLimits s attempt false u ∧
      get_network_backoff_time defaultRateLimits s attempt false u <
        325/4) := by
  have hbn : (0 : ℚ) <
      min (10 * (5/2 : ℚ) ^ max attempt s.consecutive_network_errors) 120 :=
    lt_min (by positivity) (by norm_num)
  have hbs : (0 : ℚ) <
      min (15 * (5/2 : ℚ) ^ (max attempt s.consecutive_network_errors + 1))
        120 :=
    lt_min (by positivity) (by norm_num)
  have hN : get_network_backoff_time defaultRateLimits s attempt false u =
      min (10 * (5/2 : ℚ) ^ max attempt s.consecutive_network_errors) 120 +
      u * (3/10 *
        min (10 * (5/2 : ℚ) ^ max attempt s.consecutive_network_errors)
          120) := rfl
  have hS : get_network_backoff_time defaultRateLimits s attempt true u =
      min (15 * (5/2 : ℚ) ^ (max attempt s.consecutive_network_errors + 1))
        120 +
      u * (3/10 *
        min (15 * (5/2 : ℚ) ^ (max attempt s.consecutive_network_errors + 1))
          120) := rfl
  have main := backoff_jitter_bounds _ u hbn h0 h1
  have mainS := backoff_jitter_bounds _ u hbs h0 h1
  refine ⟨⟨by rw [hN]; exact main.1, by rw [hN]; exact main.2⟩,
    ⟨by rw [hS]; exact mainS.1, by rw [hS]; exact mainS.2⟩, ?_, ?_⟩
  · intro ha hc
    have hf : max attempt s.consecutive_network_errors = 0 := by
      rw [ha, hc]
      decide
    have h10 : min (10 * (5/2 : ℚ) ^ max attempt s.consecutive_network_errors)
        120 = 10 := by
      rw [hf]
      norm_num
    rw [hN, h10]
    constructor
    · nlinarith
    · nlinarith
  · intro ha hc
    have hf : max attempt s.consecutive_network_errors = 2 := by
      rw [ha, hc]
      decide
    have h62 : min (10 * (5/2 : ℚ) ^ max attempt s.consecutive_network_errors)
        120 = 125/2 := by
      rw [hf]
      norm_num
    rw [hN, h62]
    constructor
    · nlinarith
    · nlinarith

/-- Claim C7 witness: the bounds applied on a fresh limiter with jitter
draw 0, at attempts 0 and 2. -/
theorem c7_witness :
    (0 : ℚ) ≤ 0 ∧ (0 : ℚ) < 1 ∧
    (10 ≤ get_network_backoff_time defaultRateLimits (RateLimiter.init 0)
        0 false 0 ∧
      get_network_backoff_time defaultRateLimits (RateLimiter.init 0)
        0 false 0 < 13) ∧
    (125/2 ≤ get_network_backoff_time defaultRateLimits (RateLimiter.init 0)
        2 false 0 ∧
      get_network_backoff_time defaultRateLimits (RateLimiter.init 0)
        2 false 0 < 325/4) := by
  refine ⟨le_refl 0, by norm_num, ?_, ?_⟩
  · exact (c7_backoff_bounds (RateLimiter.init 0) 0 0 (le_refl 0)
      (by norm_num)).2.2.1 rfl rfl
  · exact (c7_backoff_bounds (RateLimiter.init 0) 2 0 (le_refl 0)
      (by norm_num)).2.2.2 rfl rfl

/-! ### Claim C10 -/

/-- Claim C10: immediately after construction, both limiter variants
have zero counters, the page-2 variant has no cooldown, and
`last_request_time` is backdated by one full minute; hence for every
positive configured limit the first `can_make_request` call (at any
time) returns true and the first `get_wait_time` call returns 0. -/
theorem c10_fresh_limiter_admits (cfg : RateLimits) (l : Utils.Limits)
    (t now : Int) (u : ℚ)
    (h1 : 0 < cfg.requests_per_minute) (h2 : 0 < cfg.requests_per_day)
    (h3 : 0 < l.requests_per_minute) (h4 : 0 < l.requests_per_day) :
    (RateLimiter.init t).requests_this_minute = 0 ∧
    (RateLimiter.init t).requests_today = 0 ∧
    (RateLimiter.init t).in_cooldown = false ∧
    (RateLimiter.init t).cooldown_end_time = none ∧
    (RateLimiter.init t).last_request_time = t - 60 ∧
    (can_make_request cfg (RateLimiter.init t) now).1 = true ∧
    get_wait_time cfg (RateLimiter.init t) now u = 0 ∧
    (Utils.RateLimiter.init l t).requests_this_minute = 0 ∧
    (Utils.RateLimiter.init l t).requests_today = 0 ∧
    (Utils.RateLimiter.init l t).last_request_time = t - 60 ∧
    (Utils.can_make_request (Utils.RateLimiter.init l t) now).1 = true ∧
    Utils.get_wait_time (Utils.RateLimiter.init l t) now = 0 := by
  refine ⟨rfl, rfl, rfl, rfl, rfl, ?_, ?_, rfl, rfl, rfl, ?_, ?_⟩
  · rw [can_make_request_no_cooldown cfg _ now rfl]
    have h := rolloverAndDecide_spec cfg (RateLimiter.init t) now
    rw [h.2.2.2.2.2.2.2.2]
    have hm : (rolloverAndDecide cfg (RateLimiter.init t) now).2.requests_this_minute = 0 := by
      rw [h.1]
      simp [RateLimiter.init]
    have hd : (rolloverAndDecide cfg (RateLimiter.init t) now).2.requests_today = 0 := by
      rw [h.2.1]
      simp [RateLimiter.init]
    rw [hm, hd]
    simp [h1, h2]
  · show (if cfg.requests_per_minute ≤ (RateLimiter.init t).requests_this_minute
      then _ else (0 : ℚ)) = 0
    rw [if_neg]
    simp [RateLimiter.init]
    omega
  · unfold Utils.can_make_request
    by_cases hd : pyDate now = (Utils.RateLimiter.init l t).day_start <;>
      by_cases hm : 60 ≤ tdSeconds (now - (Utils.RateLimiter.init l t).last_request_time) <;>
        simp_all [Utils.RateLimiter.init, h3, h4]
  · unfold Utils.get_wait_time
    rw [if_neg]
    simp [Utils.RateLimiter.init]
    omega

/-- Claim C10 witness: the fresh-limiter admission facts at the default
page-2 configuration and a `limits` dictionary of 3 per minute and 50
per day, constructed at time 0 and first queried at time 5. -/
theorem c10_witness :
    (can_make_request defaultRateLimits (RateLimiter.init 0) 5).1 = true ∧
    get_wait_time defaultRateLimits (RateLimiter.init 0) 5 0 = 0 ∧
    (Utils.can_make_request (Utils.RateLimiter.init limitsW 0) 5).1 = true ∧
    Utils.get_wait_time (Utils.RateLimiter.init limitsW 0) 5 = 0 := by
  obtain ⟨-, -, -, -, -, a, b, -, -, -, c, d⟩ :=
    c10_fresh_limiter_admits defaultRateLimits limitsW 0 5 0
      (by decide) (by decide) (by decide) (by decide)
  exact ⟨a, b, c, d⟩

/-! ### Helper lemmas about the retry loop -/

lemma attemptBody_log (cfg : RateLimits) (env : Env) (mr a : Nat)
    (s : RateLimiter) :
    (attemptBody cfg env mr a s).2.attempt = a ∧
    (attemptBody cfg env mr a s).2.pre = s ∧
    (attemptBody cfg env mr a s).2.t = env.tCheck a ∧
    (attemptBody cfg env mr a s).2.admitted =
      (can_make_request cfg s (env.tCheck a)).1 ∧
    (attemptBody cfg env mr a s).2.outcome =
      (if (can_make_request cfg s (env.tCheck a)).1 = true
       then some (env.outcome a) else none) := by
  by_cases hp : (can_make_request cfg s (env.tCheck a)).1 = true
  · cases ho : env.outcome a with
    | ok => simp [attemptBody, hp, ho]
    | err k =>
      cases k <;> simp [attemptBody, hp, ho] <;> split_ifs <;>
        simp [hp, ho]
  · have hp2 : (can_make_request cfg s (env.tCheck a)).1 = false := by
      simpa using hp
    simp [attemptBody, hp2]
    split_ifs <;> simp [hp2]

lemma attemptBody_done_some (cfg : RateLimits) (env : Env) (mr a : Nat)
    (s : RateLimiter) (i : Nat) (s3 : RateLimiter)
    (h : (attemptBody cfg env mr a s).1 = .done (some i) s3) :
    env.outcome a = .ok ∧ i = a ∧
    s3 = reset_rate_limit_errors (reset_network_errors
      (record_request (can_make_request cfg s (env.tCheck a)).2
        (env.tAct a))) ∧
    s3.consecutive_network_errors = 0 ∧ s3.rate_limit_errors = 0 ∧
    s3.in_cooldown = false ∧ s3.cooldown_end_time = none := by
  by_cases hp : (can_make_request cfg s (env.tCheck a)).1 = true
  · cases ho : env.outcome a with
    | ok =>
      simp only [attemptBody, hp, ho, if_true] at h
      simp only [StepResult.done.injEq, Option.some.injEq] at h
      obtain ⟨hi, hs3⟩ := h
      subst hs3
      exact ⟨rfl, hi.symm, rfl,
        by simp [reset_rate_limit_errors, reset_network_errors],
        by simp [reset_rate_limit_errors],
        by simp [reset_rate_limit_errors],
        by simp [reset_rate_limit_errors]⟩
    | err k =>
      exfalso
      cases k <;> simp only [attemptBody, hp, ho, if_true] at h <;>
        first
          | (split_ifs at h <;> simp at h)
          | simp at h
  · exfalso
    have hp2 : (can_make_request cfg s (env.tCheck a)).1 = false := by
      simpa using hp
    simp only [attemptBody, hp2] at h
    split_ifs at h <;> simp_all

lemma admit_counters (cfg : RateLimits) (s : RateLimiter) (now : Int)
    (h : (can_make_request cfg s now).1 = true) :
    (can_make_request cfg s now).2.requests_this_minute <
      cfg.requests_per_minute ∧
    (can_make_request cfg s now).2.requests_today <
      cfg.requests_per_day := by
  have key : ∀ s2 : RateLimiter, (rolloverAndDecide cfg s2 now).1 = true →
      (rolloverAndDecide cfg s2 now).2.requests_this_minute <
        cfg.requests_per_minute ∧
      (rolloverAndDecide cfg s2 now).2.requests_today <
        cfg.requests_per_day := by
    intro s2 h2
    have hs := (rolloverAndDecide_spec cfg s2 now).2.2.2.2.2.2.2.2
    rw [hs] at h2
    simpa using h2
  cases hb : s.in_cooldown with
  | false =>
    rw [can_make_request_no_cooldown cfg s now hb] at h ⊢
    exact key s h
  | true =>
    cases he : s.cooldown_end_time with
    | none =>
      rw [can_make_request_none_end cfg s now he] at h ⊢
      exact key s h
    | some e =>
      by_cases hlt : now < e
      · rw [can_make_request_blocked cfg s now e hb he hlt] at h
        simp at h
      · rw [can_make_request_expired cfg s now e hb he (by omega)] at h ⊢
        exact key _ h

lemma admit_window (cfg : RateLimits) (s : RateLimiter) (now : Int)
    (h1 : cfg.requests_per_minute = 1) (hm : 1 ≤ s.requests_this_minute)
    (hle : s.last_request_time ≤ now)
    (h : (can_make_request cfg s now).1 = true) :
    s.last_request_time + 60 ≤ now := by
  have key : ∀ s2 : RateLimiter,
      s2.requests_this_minute = s.requests_this_minute →
      s2.last_request_time = s.last_request_time →
      (rolloverAndDecide cfg s2 now).1 = true →
      s.last_request_time + 60 ≤ now := by
    intro s2 hm2 hl2 h2
    have hs := rolloverAndDecide_spec cfg s2 now
    rw [hs.2.2.2.2.2.2.2.2, Bool.and_eq_true, decide_eq_true_eq,
      decide_eq_true_eq] at h2
    have hmin := h2.1
    rw [hs.1] at hmin
    by_cases hcond : 60 ≤ tdSeconds (now - s2.last_request_time)
    · rw [hl2] at hcond
      unfold tdSeconds at hcond
      omega
    · rw [if_neg hcond] at hmin
      omega
  cases hb : s.in_cooldown with
  | false =>
    rw [can_make_request_no_cooldown cfg s now hb] at h
    exact key s rfl rfl h
  | true =>
    cases he : s.cooldown_end_time with
    | none =>
      rw [can_make_request_none_end cfg s now he] at h
      exact key s rfl rfl h
    | some e =>
      by_cases hlt : now < e
      · rw [can_make_request_blocked cfg s now e hb he hlt] at h
        simp at h
      · rw [can_make_request_expired cfg s now e hb he (by omega)] at h
        exact key { s with in_cooldown := false, cooldown_end_time := none }
          rfl rfl h

lemma runFrom_trace_spec (cfg : RateLimits) (env : Env) (mr : Nat) :
    ∀ fuel a s, ∀ e ∈ (runFrom cfg env mr fuel a s).trace,
      e.t = env.tCheck e.attempt ∧
      e.admitted = (can_make_request cfg e.pre e.t).1 ∧
      e.outcome = (if e.admitted = true
        then some (env.outcome e.attempt) else none) := by
  intro fuel
  induction fuel with
  | zero =>
    intro a s e he
    simp [runFrom] at he
  | succ fuel ih =>
    intro a s e he
    have hl := attemptBody_log cfg env mr a s
    simp only [runFrom] at he
    rcases hb : attemptBody cfg env mr a s with ⟨step, log⟩
    rw [hb] at he hl
    have hfields : log.attempt = a ∧ log.pre = s ∧ log.t = env.tCheck a ∧
        log.admitted = (can_make_request cfg s (env.tCheck a)).1 ∧
        log.outcome = (if (can_make_request cfg s (env.tCheck a)).1 = true
          then some (env.outcome a) else none) := hl
    have hlogcase : e = log →
        e.t = env.tCheck e.attempt ∧
        e.admitted = (can_make_request cfg e.pre e.t).1 ∧
        e.outcome = (if e.admitted = true
          then some (env.outcome e.attempt) else none) := by
      rintro rfl
      obtain ⟨h1, h2, h3, h4, h5⟩ := hfields
      rw [h1, h2, h3] at *
      refine ⟨h3, by rw [h4, h3], ?_⟩
      rw [h5, h4, h3]
    cases step with
    | done r s3 =>
      simp at he
      exact hlogcase he
    | retry s3 =>
      simp at he
      rcases he with he | he
      · exact hlogcase he
      · exact ih (a + 1) s3 e he

lemma runFrom_head (cfg : RateLimits) (env : Env) (mr : Nat)
    (fuel a : Nat) (s : RateLimiter) (hf : 1 ≤ fuel) :
    ∃ l0 t0, (runFrom cfg env mr fuel a s).trace = l0 :: t0 ∧
      l0.attempt = a := by
  obtain ⟨fuel2, rfl⟩ : ∃ f2, fuel = f2 + 1 := ⟨fuel - 1, by omega⟩
  have hl := attemptBody_log cfg env mr a s
  simp only [runFrom]
  rcases hb : attemptBody cfg env mr a s with ⟨step, log⟩
  rw [hb] at hl
  cases step with
  | done r s3 => exact ⟨log, [], rfl, hl.1⟩
  | retry s3 =>
    exact ⟨log, (runFrom cfg env mr fuel2 (a + 1) s3).trace, rfl, hl.1⟩

lemma getLast?_cons_of_getLast? {α : Type} (x e : α) (l : List α)
    (h : l.getLast? = some e) : (x :: l).getLast? = some e := by
  cases l with
  | nil => simp at h
  | cons b t => rw [List.getLast?_cons_cons]; exact h

lemma runFrom_succ_done (cfg : RateLimits) (env : Env) (mr fuel a : Nat)
    (s : RateLimiter) (r : Option Nat) (s3 : RateLimiter) (log : AttemptLog)
    (hb : attemptBody cfg env mr a s = (.done r s3, log)) :
    runFrom cfg env mr (fuel + 1) a s = ⟨r, s3, [log]⟩ := by
  simp [runFrom, hb]

lemma runFrom_succ_retry (cfg : RateLimits) (env : Env) (mr fuel a : Nat)
    (s s3 : RateLimiter) (log : AttemptLog)
    (hb : attemptBody cfg env mr a s = (.retry s3, log)) :
    runFrom cfg env mr (fuel + 1) a s =
      ⟨(runFrom cfg env mr fuel (a + 1) s3).result,
       (runFrom cfg env mr fuel (a + 1) s3).final,
       log :: (runFrom cfg env mr fuel (a + 1) s3).trace⟩ := by
  simp [runFrom, hb]

lemma runFrom_result_some (cfg : RateLimits) (env : Env) (mr : Nat) :
    ∀ fuel a s i, (runFrom cfg env mr fuel a s).result = some i →
      (runFrom cfg env mr fuel a s).final.consecutive_network_errors = 0 ∧
      (runFrom cfg env mr fuel a s).final.rate_limit_errors = 0 ∧
      (runFrom cfg env mr fuel a s).final.in_cooldown = false ∧
      (runFrom cfg env mr fuel a s).final.cooldown_end_time = none := by
  intro fuel
  induction fuel with
  | zero =>
    intro a s i h
    simp [runFrom] at h
  | succ fuel ih =>
    intro a s i h
    rcases hb : attemptBody cfg env mr a s with ⟨step, log⟩
    cases step with
    | done r s3 =>
      rw [runFrom_succ_done cfg env mr fuel a s r s3 log hb] at h ⊢
      obtain rfl : r = some i := h
      have hd := attemptBody_done_some cfg env mr a s i s3 (by rw [hb])
      exact ⟨hd.2.2.2.1, hd.2.2.2.2.1, hd.2.2.2.2.2.1, hd.2.2.2.2.2.2⟩
    | retry s3 =>
      rw [runFrom_succ_retry cfg env mr fuel a s s3 log hb] at h ⊢
      exact ih (a + 1) s3 i h

lemma runFrom_no_ok_none (cfg : RateLimits) (env : Env) (mr : Nat)
    (h : ∀ i, env.outcome i ≠ .ok) :
    ∀ fuel a s, (runFrom cfg env mr fuel a s).result = none := by
  intro fuel
  induction fuel with
  | zero => intro a s; rfl
  | succ fuel ih =>
    intro a s
    simp only [runFrom]
    rcases hb : attemptBody cfg env mr a s with ⟨step, log⟩
    cases step with
    | done r s3 =>
      cases r with
      | none => rfl
      | some i =>
        exfalso
        have hd := attemptBody_done_some cfg env mr a s i s3 (by rw [hb])
        exact h a hd.1
    | retry s3 => exact ih (a + 1) s3

/-! ### Claim C3 -/

/-- Claim C3 counterexample: in `stateC3` the minute window is long
elapsed (last request at time 0, call at time 120) and the minute limit
is reached, so the rollover-first behaviour the claim describes
(`record_request_claim`) would reset and then increment to 1; the actual
`record_request` performs no rollover and increments to 4, so the two
disagree. -/
theorem c3_counterexample :
    (record_request stateC3 120).requests_this_minute = 4 ∧
    (record_request_claim stateC3 120).requests_this_minute = 1 ∧
    record_request stateC3 120 ≠ record_request_claim stateC3 120 := by
  decide

/-- Claim C3 (amended): `record_request` itself performs no window
rollover: it unconditionally increments `requests_this_minute` and
`requests_today` by exactly 1 and sets `last_request_time` to the
current time, leaving every other field unchanged.  Correct-window
accounting in the retry loop holds because `record_request` is invoked
only immediately after `can_make_request` returned true, whose rollover
has already run: at every admitted attempt of a run the rolled-over
minute counter is strictly below the configured limit. -/
theorem c3_record_request_increments (s : RateLimiter) (now : Int)
    (cfg : RateLimits) (env : Env) (mr : Nat) (s0 : RateLimiter) :
    (record_request s now).requests_this_minute =
      s.requests_this_minute + 1 ∧
    (record_request s now).requests_today = s.requests_today + 1 ∧
    (record_request s now).last_request_time = now ∧
    (record_request s now).in_cooldown = s.in_cooldown ∧
    (record_request s now).day_start = s.day_start ∧
    (∀ e ∈ (get_ai_response cfg env mr s0).trace, e.admitted = true →
      (can_make_request cfg e.pre e.t).2.requests_this_minute <
        cfg.requests_per_minute) := by
  refine ⟨rfl, rfl, rfl, rfl, rfl, ?_⟩
  intro e he hA
  have hspec := runFrom_trace_spec cfg env mr mr 0 s0 e he
  have hadm : (can_make_request cfg e.pre e.t).1 = true :=
    hspec.2.1.symm.trans hA
  exact (admit_counters cfg e.pre e.t hadm).1

/-- Claim C3 witness: the amended theorem applied at `stateC3`, time
120, and at the admitted attempt `logC3` of the concrete successful run
of `get_ai_response` on a fresh limiter. -/
theorem c3_witness :
    logC3 ∈ (get_ai_response defaultRateLimits envOk 1
      (RateLimiter.init 0)).trace ∧
    (record_request stateC3 120).requests_this_minute =
      stateC3.requests_this_minute + 1 ∧
    (can_make_request defaultRateLimits logC3.pre logC3.t).2.requests_this_minute
      < defaultRateLimits.requests_per_minute := by
  have hmem : logC3 ∈ (get_ai_response defaultRateLimits envOk 1
      (RateLimiter.init 0)).trace := by decide
  have h := c3_record_request_increments stateC3 120 defaultRateLimits
    envOk 1 (RateLimiter.init 0)
  exact ⟨hmem, h.1, h.2.2.2.2.2 logC3 hmem rfl⟩

/-! ### Claim C5 -/

/-- Claim C5: in every execution of the retry loop, the underlying AI
callable is invoked at an attempt exactly when `can_make_request`
returned true immediately before (a refused attempt never issues the
call); and when `requests_per_minute = 1` and a request was already
admitted in the current minute window (`requests_this_minute ≥ 1`), an
attempt at a time less than 60 seconds past `last_request_time` is never
admitted, i.e. every admitted attempt happens at least 60 seconds after
the previous admission. -/
theorem c5_no_call_before_window (cfg : RateLimits) (env : Env)
    (mr : Nat) (s0 : RateLimiter) (h1 : cfg.requests_per_minute = 1) :
    ∀ e ∈ (get_ai_response cfg env mr s0).trace,
      (e.outcome.isSome = e.admitted) ∧
      (e.admitted = (can_make_request cfg e.pre e.t).1) ∧
      (e.admitted = true → 1 ≤ e.pre.requests_this_minute →
        e.pre.last_request_time ≤ e.t →
        e.pre.last_request_time + 60 ≤ e.t) := by
  intro e he
  obtain ⟨ht, hadm, hout⟩ := runFrom_trace_spec cfg env mr mr 0 s0 e he
  refine ⟨?_, hadm, ?_⟩
  · rw [hout]
    cases hA : e.admitted <;> simp [hA]
  · intro hA hm hle
    exact admit_window cfg e.pre e.t h1 hm hle (hadm.symm.trans hA)

/-- Claim C5 witness: with a one-per-minute limit and an admission
already recorded at time 0 (`stateC5`), the run under `envLate` admits
its attempt at time 100, and the theorem yields that this admitted
attempt is at least 60 seconds past the previous admission. -/
theorem c5_witness :
    logC5 ∈ (get_ai_response cfgOnePerMinute envLate 1 stateC5).trace ∧
    logC5.admitted = true ∧
    logC5.pre.last_request_time + 60 ≤ logC5.t := by
  have hmem : logC5 ∈ (get_ai_response cfgOnePerMinute envLate 1
      stateC5).trace := by decide
  refine ⟨hmem, rfl, ?_⟩
  exact (c5_no_call_before_window cfgOnePerMinute envLate 1 stateC5 rfl
    logC5 hmem).2.2 rfl (by decide) (by decide)

/-! ### Claim C6 -/

/-- Claim C6: whenever a run of the retry loop returns a successful
response, the final limiter state has
`consecutive_network_errors = 0`, `rate_limit_errors = 0`,
`in_cooldown = false` and `cooldown_end_time = None`, regardless of the
prior error history — a single success fully rehabilitates the error
history. -/
theorem c6_success_rehabilitates (cfg : RateLimits) (env : Env)
    (mr : Nat) (s0 : RateLimiter) (i : Nat)
    (h : (get_ai_response cfg env mr s0).result = some i) :
    (get_ai_response cfg env mr s0).final.consecutive_network_errors = 0 ∧
    (get_ai_response cfg env mr s0).final.rate_limit_errors = 0 ∧
    (get_ai_response cfg env mr s0).final.in_cooldown = false ∧
    (get_ai_response cfg env mr s0).final.cooldown_end_time = none :=
  runFrom_result_some cfg env mr mr 0 s0 i h

/-- Claim C6 witness: the successful run of `get_ai_response` on a
fresh limiter ends with all error state cleared. -/
theorem c6_witness :
    (get_ai_response defaultRateLimits envOk 1
      (RateLimiter.init 0)).result = some 0 ∧
    (get_ai_response defaultRateLimits envOk 1
      (RateLimiter.init 0)).final.consecutive_network_errors = 0 ∧
    (get_ai_response defaultRateLimits envOk 1
      (RateLimiter.init 0)).final.rate_limit_errors = 0 ∧
    (get_ai_response defaultRateLimits envOk 1
      (RateLimiter.init 0)).final.in_cooldown = false ∧
    (get_ai_response defaultRateLimits envOk 1
      (RateLimiter.init 0)).final.cooldown_end_time = none := by
  have h := c6_success_rehabilitates defaultRateLimits envOk 1
    (RateLimiter.init 0) 0 rfl
  exact ⟨rfl, h.1, h.2.1, h.2.2.1, h.2.2.2⟩

/-! ### Claim C9 -/

/-- Claim C9 counterexample: two runs that fail for different reasons —
one with a terminal token-limit error, one with a network error whose
retry budget is exhausted — both return the untyped empty result `None`,
and the two returned values are identical even though the recorded error
kinds differ; the return value therefore carries neither the last error
kind nor a wait time. -/
theorem c9_counterexample :
    (get_ai_response defaultRateLimits envTok 1
      (RateLimiter.init 0)).result = none ∧
    (get_ai_response defaultRateLimits envNet 1
      (RateLimiter.init 0)).result = none ∧
    (get_ai_response defaultRateLimits envTok 1
      (RateLimiter.init 0)).result =
      (get_ai_response defaultRateLimits envNet 1
        (RateLimiter.init 0)).result ∧
    (get_ai_response defaultRateLimits envTok 1
        (RateLimiter.init 0)).trace.map AttemptLog.outcome ≠
      (get_ai_response defaultRateLimits envNet 1
        (RateLimiter.init 0)).trace.map AttemptLog.outcome := by
  decide

/-- Claim C9 (amended): whenever the retry loop terminates without a
successful response — in particular when no attempt of the run ever
succeeds — `get_ai_response` returns the untyped empty result `None`;
the error kind and suggested wait time are conveyed only through
displayed UI messages, not through the return value. -/
theorem c9_failure_returns_none (cfg : RateLimits) (env : Env)
    (mr : Nat) (s0 : RateLimiter) (h : ∀ i, env.outcome i ≠ .ok) :
    (get_ai_response cfg env mr s0).result = none :=
  runFrom_no_ok_none cfg env mr h mr 0 s0

/-- Claim C9 witness: a run whose callable always raises a network
error returns `None`. -/
theorem c9_witness :
    (get_ai_response defaultRateLimits envNet 3
      (RateLimiter.init 0)).result = none := by
  refine c9_failure_returns_none defaultRateLimits envNet 3
    (RateLimiter.init 0) ?_
  intro i
  simp [envNet]

/-! ### Claim C8 -/

lemma retryCondition_imp (cfg : RateLimits) (mr : Nat) (k : ErrKind)
    (a : Nat) (h : retryCondition cfg mr k a = true) : a + 1 < mr := by
  cases k <;> simp [retryCondition] at h <;> omega

lemma attemptBody_err (cfg : RateLimits) (env : Env) (mr a : Nat)
    (s : RateLimiter) (k : ErrKind)
    (hp : (can_make_request cfg s (env.tCheck a)).1 = true)
    (ho : env.outcome a = .err k) :
    ((k = .tokenLimit ∨ k = .other) →
      attemptBody cfg env mr a s =
        (.done none (record_request (can_make_request cfg s (env.tCheck a)).2
            (env.tAct a)),
         ⟨a, s, env.tCheck a, true, some (.err k), false,
          record_request (can_make_request cfg s (env.tCheck a)).2
            (env.tAct a)⟩)) ∧
    ((k = .rateLimit ∨ k = .network ∨ k = .serviceUnavailable) →
      (retryCondition cfg mr k a = true →
        attemptBody cfg env mr a s =
          (.retry (record_error cfg
              (record_request (can_make_request cfg s (env.tCheck a)).2
                (env.tAct a)) (env.tAct a) (recordedType k)),
           ⟨a, s, env.tCheck a, true, some (.err k), true,
            record_error cfg
              (record_request (can_make_request cfg s (env.tCheck a)).2
                (env.tAct a)) (env.tAct a) (recordedType k)⟩)) ∧
      (retryCondition cfg mr k a = false →
        attemptBody cfg env mr a s =
          (.done none (record_error cfg
              (record_request (can_make_request cfg s (env.tCheck a)).2
                (env.tAct a)) (env.tAct a) (recordedType k)),
           ⟨a, s, env.tCheck a, true, some (.err k), false,
            record_error cfg
              (record_request (can_make_request cfg s (env.tCheck a)).2
                (env.tAct a)) (env.tAct a) (recordedType k)⟩))) := by
  cases k with
  | rateLimit =>
    refine ⟨fun hcon => by simp at hcon, fun _ => ⟨?_, ?_⟩⟩
    · intro hrc
      simp only [retryCondition, decide_eq_true_eq] at hrc
      simp [attemptBody, hp, ho, recordedType, hrc]
    · intro hrc
      simp only [retryCondition, decide_eq_false_iff_not] at hrc
      simp [attemptBody, hp, ho, recordedType, hrc]
  | network =>
    refine ⟨fun hcon => by simp at hcon, fun _ => ⟨?_, ?_⟩⟩
    · intro hrc
      simp only [retryCondition, decide_eq_true_eq] at hrc
      simp [attemptBody, hp, ho, recordedType, hrc]
    · intro hrc
      simp only [retryCondition, decide_eq_false_iff_not] at hrc
      simp [attemptBody, hp, ho, recordedType, hrc]
  | serviceUnavailable =>
    refine ⟨fun hcon => by simp at hcon, fun _ => ⟨?_, ?_⟩⟩
    · intro hrc
      simp only [retryCondition, decide_eq_true_eq] at hrc
      simp [attemptBody, hp, ho, recordedType, hrc]
    · intro hrc
      simp only [retryCondition, decide_eq_false_iff_not] at hrc
      simp [attemptBody, hp, ho, recordedType, hrc]
  | tokenLimit =>
    refine ⟨fun _ => by simp [attemptBody, hp, ho], fun hcon => by
      simp at hcon⟩
  | other =>
    refine ⟨fun _ => by simp [attemptBody, hp, ho], fun hcon => by
      simp at hcon⟩

lemma runFrom_error_policy (cfg : RateLimits) (env : Env) (mr : Nat) :
    ∀ fuel a s, mr ≤ fuel + a →
    ∀ e ∈ (runFrom cfg env mr fuel a s).trace, ∀ k,
      e.outcome = some (.err k) →
      ((k = .tokenLimit ∨ k = .other) →
        e.slept = false ∧
        e.post = record_request (can_make_request cfg e.pre e.t).2
          (env.tAct e.attempt) ∧
        (runFrom cfg env mr fuel a s).result = none ∧
        (runFrom cfg env mr fuel a s).trace.getLast? = some e) ∧
      ((k = .rateLimit ∨ k = .network ∨ k = .serviceUnavailable) →
        e.post = record_error cfg
          (record_request (can_make_request cfg e.pre e.t).2
            (env.tAct e.attempt)) (env.tAct e.attempt) (recordedType k) ∧
        (retryCondition cfg mr k e.attempt = true →
          e.slept = true ∧
          ∃ e2, e2 ∈ (runFrom cfg env mr fuel a s).trace ∧
            e2.attempt = e.attempt + 1) ∧
        (retryCondition cfg mr k e.attempt = false →
          e.slept = false ∧
          (runFrom cfg env mr fuel a s).result = none ∧
          (runFrom cfg env mr fuel a s).trace.getLast? = some e)) := by
  intro fuel
  induction fuel with
  | zero =>
    intro a s hmr e he
    simp [runFrom] at he
  | succ fuel ih =>
    intro a s hmr e he k hk
    rcases hb : attemptBody cfg env mr a s with ⟨step, log⟩
    have hl := attemptBody_log cfg env mr a s
    rw [hb] at hl
    obtain ⟨hla, hlp, hlt, hladm, hlout⟩ := hl
    cases step with
    | done r s3 =>
      rw [runFrom_succ_done cfg env mr fuel a s r s3 log hb] at he ⊢
      have he2 : e = log := by simpa using he
      subst he2
      have hadm : (can_make_request cfg s (env.tCheck a)).1 = true := by
        by_cases hA : (can_make_request cfg s (env.tCheck a)).1 = true
        · exact hA
        · rw [hlout, if_neg hA] at hk
          cases hk
      have ho : env.outcome a = .err k := by
        rw [hlout, if_pos hadm] at hk
        exact Option.some.inj hk
      have hAB := attemptBody_err cfg env mr a s k hadm ho
      refine ⟨?_, ?_⟩
      · intro hterm
        have hpair := hb.symm.trans (hAB.1 hterm)
        rw [Prod.mk.injEq, StepResult.done.injEq] at hpair
        obtain ⟨⟨hr, hs3⟩, hlog⟩ := hpair
        exact ⟨by simp [hlog], by simp [hlog], hr, by simp⟩
      · intro htr
        cases hbool : retryCondition cfg mr k a with
        | true =>
          have hpair := hb.symm.trans ((hAB.2 htr).1 hbool)
          simp at hpair
        | false =>
          have hpair := hb.symm.trans ((hAB.2 htr).2 hbool)
          rw [Prod.mk.injEq, StepResult.done.injEq] at hpair
          obtain ⟨⟨hr, hs3⟩, hlog⟩ := hpair
          have hlaa : e.attempt = a := by simp [hlog]
          refine ⟨by simp [hlog], ?_, ?_⟩
          · intro hbad
            rw [hlaa, hbool] at hbad
            cases hbad
          · intro _
            exact ⟨by simp [hlog], hr, by simp⟩
    | retry s3 =>
      rw [runFrom_succ_retry cfg env mr fuel a s s3 log hb] at he ⊢
      rcases List.mem_cons.mp he with he2 | he2
      · subst he2
        have hadm : (can_make_request cfg s (env.tCheck a)).1 = true := by
          by_cases hA : (can_make_request cfg s (env.tCheck a)).1 = true
          · exact hA
          · rw [hlout, if_neg hA] at hk
            cases hk
        have ho : env.outcome a = .err k := by
          rw [hlout, if_pos hadm] at hk
          exact Option.some.inj hk
        have hAB := attemptBody_err cfg env mr a s k hadm ho
        refine ⟨?_, ?_⟩
        · intro hterm
          have hpair := hb.symm.trans (hAB.1 hterm)
          simp at hpair
        · intro htr
          cases hbool : retryCondition cfg mr k a with
          | false =>
            have hpair := hb.symm.trans ((hAB.2 htr).2 hbool)
            simp at hpair
          | true =>
            have hpair := hb.symm.trans ((hAB.2 htr).1 hbool)
            rw [Prod.mk.injEq, StepResult.retry.injEq] at hpair
            obtain ⟨hs3, hlog⟩ := hpair
            have hlaa : e.attempt = a := by simp [hlog]
            refine ⟨by simp [hlog], ?_, ?_⟩
            · intro _
              refine ⟨by simp [hlog], ?_⟩
              have hfuel : 1 ≤ fuel := by
                have := retryCondition_imp cfg mr k a hbool
                omega
              obtain ⟨l0, t0, htr0, hatt⟩ :=
                runFrom_head cfg env mr fuel (a + 1) s3 hfuel
              refine ⟨l0, List.mem_cons_of_mem e ?_, ?_⟩
              · rw [htr0]
                exact List.mem_cons_self l0 t0
              · rw [hatt, hlaa]
            · intro hbad
              rw [hlaa, hbool] at hbad
              cases hbad
      · have ihres := ih (a + 1) s3 (by omega) e he2 k hk
        refine ⟨?_, ?_⟩
        · intro hterm
          obtain ⟨hs, hpost, hres, hlast⟩ := ihres.1 hterm
          exact ⟨hs, hpost, hres,
            getLast?_cons_of_getLast? log e _ hlast⟩
        · intro htr
          obtain ⟨hpost, hT, hF⟩ := ihres.2 htr
          refine ⟨hpost, ?_, ?_⟩
          · intro hrc
            obtain ⟨hs, e2, he2mem, hatt⟩ := hT hrc
            exact ⟨hs, e2, List.mem_cons_of_mem log he2mem, hatt⟩
          · intro hrc
            obtain ⟨hs, hres, hlast⟩ := hF hrc
            exact ⟨hs, hres, getLast?_cons_of_getLast? log e _ hlast⟩

/-- Claim C8: in every run of the retry loop, for every attempt at which
the callable raised an error of classification `k`: if `k` is token
limit or unclassified other, that attempt is the last one of the run, no
backoff sleep happens, `record_error` is not called (the state carries
only the `record_request` update), and the run returns `None`; if `k` is
a transient kind (rate limit, network, service unavailable), the state
carries the matching `record_error` update (a 503 is recorded as a
network error), and then — when the attempt budget test
(`attempt < max_retries - 1`, further restricted to
`attempt < min(max_retries - 1, max_network_retries - 1)` for a 503)
passes — the loop sleeps and a next attempt exists, so the error is not
surfaced; when the budget is exhausted the attempt is the last one and
the run terminates with `None`. -/
theorem c8_error_policy (cfg : RateLimits) (env : Env) (mr : Nat)
    (s0 : RateLimiter) :
    ∀ e ∈ (get_ai_response cfg env mr s0).trace, ∀ k,
      e.outcome = some (.err k) →
      ((k = .tokenLimit ∨ k = .other) →
        e.slept = false ∧
        e.post = record_request (can_make_request cfg e.pre e.t).2
          (env.tAct e.attempt) ∧
        (get_ai_response cfg env mr s0).result = none ∧
        (get_ai_response cfg env mr s0).trace.getLast? = some e) ∧
      ((k = .rateLimit ∨ k = .network ∨ k = .serviceUnavailable) →
        e.post = record_error cfg
          (record_request (can_make_request cfg e.pre e.t).2
            (env.tAct e.attempt)) (env.tAct e.attempt) (recordedType k) ∧
        (retryCondition cfg mr k e.attempt = true →
          e.slept = true ∧
          ∃ e2, e2 ∈ (get_ai_response cfg env mr s0).trace ∧
            e2.attempt = e.attempt + 1) ∧
        (retryCondition cfg mr k e.attempt = false →
          e.slept = false ∧
          (get_ai_response cfg env mr s0).result = none ∧
          (get_ai_response cfg env mr s0).trace.getLast? = some e)) := by
  intro e he k hk
  exact runFrom_error_policy cfg env mr mr 0 s0 (by omega) e he k hk

/-- Claim C8 witness: the policy applied to the first attempt of the
concrete run with two attempts whose callable always raises a network
error: the error is recorded as a network error, a backoff sleep
happens, and a second attempt follows. -/
theorem c8_witness :
    logC8 ∈ (get_ai_response defaultRateLimits envNet 2
      (RateLimiter.init 0)).trace ∧
    logC8.slept = true ∧
    logC8.post = record_error defaultRateLimits
      (record_request (can_make_request defaultRateLimits logC8.pre
        logC8.t).2 (envNet.tAct logC8.attempt))
      (envNet.tAct logC8.attempt) (recordedType .network) := by
  have hmem : logC8 ∈ (get_ai_response defaultRateLimits envNet 2
      (RateLimiter.init 0)).trace := by decide
  have h := (c8_error_policy defaultRateLimits envNet 2
    (RateLimiter.init 0) logC8 hmem .network rfl).2
    (Or.inr (Or.inl rfl))
  exact ⟨hmem, (h.2.1 rfl).1, h.1⟩
